import Mathlib

/-!
Verification development for the MCSManager MCP server (TypeScript).

The definitions below are a shallow embedding of the repository's source:

* `src/src/server.ts` — the `MCSManagerMCPServer` class: the session-multiplexed
  request-routing layer (`start`, the POST `/mcp` handler, `handleSessionRequest`
  for GET/DELETE, `transport.onclose`), and the registered tool handlers.
* `src/api/mcsmanager-api.ts` — the `MCSManagerAPI` upstream client.
* `src/index.ts` — the `main` entry point.
* `src/src/config.ts` — environment-sourced configuration.

JavaScript truthiness on optional strings (`undefined` and `""` are falsy) is
modelled by `jsTruthy`; HTTP headers that may be absent are `Option String`
(an empty-valued header arrives as `some ""`, which is what Node's HTTP parser
delivers for a header sent with an empty value).
-/

/-- Truthiness of a JavaScript `string | undefined` value: `undefined` and the
empty string are falsy, every other string is truthy. -/
def jsTruthy : Option String → Bool
  | none => false
  | some s => s ≠ ""

/-- JavaScript `a || b` on a `string | undefined` left operand: returns `b`
when `a` is falsy (`undefined` or `""`), otherwise `a`. -/
def jsOrElse (a : Option String) (b : String) : String :=
  match a with
  | none => b
  | some s => if s = "" then b else s

/-- Session Table of the router: the `transports` field of
`MCSManagerMCPServer`, a JavaScript object mapping `sessionId` to the
session's transport. Transports are modelled by opaque numeric handles. -/
abbrev SessionTable := List (String × Nat)

/-- Property access `this.transports[sessionId]` on the Session Table object:
`some` transport handle when the key is present, `none` (undefined) otherwise. -/
def tableLookup : SessionTable → String → Option Nat
  | [], _ => none
  | (k, v) :: rest, s => if k = s then some v else tableLookup rest s

/-- Key deletion `delete this.transports[sessionId]`: removes the binding for
the given key (JavaScript object keys are unique; on the association-list model
this removes every pair with that key). -/
def tableDelete (t : SessionTable) (s : String) : SessionTable :=
  t.filter (fun p => p.1 ≠ s)

/-- Decoded JSON body of a POST request, as far as the router inspects it:
`req.body.method` may be absent. -/
structure JsonBody where
  method : Option String
deriving DecidableEq

/-- Test `req.body && req.body.method === "initialize"` from the POST handler:
the body must be present and its `method` field must equal `"initialize"`. -/
def isInitializeBody : Option JsonBody → Bool
  | none => false
  | some b => b.method = some "initialize"

/-- JSON-RPC error body sent by the POST handler's reject branch
(`res.status(400).json({...})`). The `id` field is JSON `null`, modelled as
`none`. -/
structure JsonRpcErrorBody where
  jsonrpc : String
  code : Int
  message : String
  id : Option Int
deriving DecidableEq

/-- Exact reject body of the POST `/mcp` handler in `server.ts`. -/
def badRequestBody : JsonRpcErrorBody :=
  { jsonrpc := "2.0"
    code := -32000
    message := "Bad Request: No valid session ID provided"
    id := none }

/-- Model of `crypto.randomUUID` as used by `sessionIdGenerator`: the n-th
identifier generated during the process's lifetime. Any injective generator of
never-before-issued identifiers models the uniqueness contract of
`randomUUID`; this one is injective by length. -/
def uuidGen (n : Nat) : String :=
  String.mk (List.replicate (n + 1) 'u')

/-- State of the router across requests: the Session Table (`this.transports`),
a supply of transport handles, and the count of identifiers already drawn from
the `randomUUID` supply. -/
structure RouterState where
  table : SessionTable
  nextHandle : Nat
  nextUuid : Nat
deriving DecidableEq

/-- Identifiers issued by the `randomUUID` supply so far during this process
run. -/
def issuedIds (st : RouterState) : List String :=
  (List.range st.nextUuid).map uuidGen

/-- Outcome of the POST `/mcp` handler: route the body to an existing
transport, create a fresh session (transport connected, request handled on
it), or reject with an HTTP status and a JSON-RPC error body. -/
inductive PostResponse where
  | routed (handle : Nat)
  | created (sessionId : String) (handle : Nat)
  | badRequest (status : Nat) (body : JsonRpcErrorBody)
deriving DecidableEq

/-- POST `/mcp` handler of `MCSManagerMCPServer.start` (`server.ts` lines
710–752). Mirrors the branch chain:
`if (sessionId && this.transports[sessionId]) { reuse }`
`else if (!sessionId && req.body && req.body.method === "initialize") { create }`
`else { 400 }`.
The create branch draws a fresh id from the `randomUUID` supply and stores the
new transport in the table (the `onsessioninitialized` callback fires while the
initialization request is handled), and registers `oncloseHook` as the
transport's teardown hook. -/
def handlePost (st : RouterState) (header : Option String) (body : Option JsonBody) :
    RouterState × PostResponse :=
  match (if jsTruthy header then tableLookup st.table (jsOrElse header "") else none) with
  | some t => (st, .routed t)
  | none =>
    if !(jsTruthy header) && isInitializeBody body then
      let sid := uuidGen st.nextUuid
      ({ table := (sid, st.nextHandle) :: st.table
         nextHandle := st.nextHandle + 1
         nextUuid := st.nextUuid + 1 },
       .created sid st.nextHandle)
    else
      (st, .badRequest 400 badRequestBody)

/-- Teardown hook `transport.onclose` (`server.ts` lines 729–733):
`if (transport.sessionId) { delete this.transports[transport.sessionId] }`.
A transport whose `sessionId` is still `undefined` (or empty) is skipped. -/
def oncloseHook (t : SessionTable) (transportSessionId : Option String) : SessionTable :=
  if jsTruthy transportSessionId then tableDelete t (jsOrElse transportSessionId "") else t

/-- Response of the shared GET/DELETE handler: either a plain-text reject with
an HTTP status, or the request is routed to the session's transport. -/
inductive SessionResponse where
  | reject (status : Nat) (body : String)
  | route (handle : Nat)
deriving DecidableEq

/-- Shared GET/DELETE handler `handleSessionRequest` (`server.ts` lines
755–767). Mirrors `if (!sessionId || !this.transports[sessionId]) { 400 }`;
the valid branch delegates to `transport.handleRequest` and the handler itself
does not touch the table. -/
def handleSessionRequest (t : SessionTable) (header : Option String) :
    SessionTable × SessionResponse :=
  match (if jsTruthy header then tableLookup t (jsOrElse header "") else none) with
  | none => (t, .reject 400 "Invalid or missing session ID")
  | some h => (t, .route h)

/-- Branch characterization of the POST `/mcp` handler: a request is either
routed to an existing transport (truthy header found in the table), answered by
creating a fresh session (falsy header and initialization body), or rejected
with the fixed 400 JSON-RPC error. -/
theorem handlePost_cases (st : RouterState) (header : Option String) (body : Option JsonBody) :
    (jsTruthy header = true ∧ ∃ t, tableLookup st.table (jsOrElse header "") = some t ∧
        handlePost st header body = (st, .routed t)) ∨
    (jsTruthy header = false ∧ isInitializeBody body = true ∧
        handlePost st header body =
          ({ table := (uuidGen st.nextUuid, st.nextHandle) :: st.table
             nextHandle := st.nextHandle + 1
             nextUuid := st.nextUuid + 1 },
           .created (uuidGen st.nextUuid) st.nextHandle)) ∨
    (handlePost st header body = (st, .badRequest 400 badRequestBody) ∧
        ¬(jsTruthy header = false ∧ isInitializeBody body = true)) := by
  by_cases htr : jsTruthy header = true
  · cases hlk : tableLookup st.table (jsOrElse header "") with
    | some t => exact Or.inl ⟨htr, t, rfl, by simp [handlePost, htr, hlk]⟩
    | none =>
        refine Or.inr (Or.inr ⟨by simp [handlePost, htr, hlk], ?_⟩)
        simp [htr]
  · have htr' : jsTruthy header = false := by simpa using htr
    cases hib : isInitializeBody body with
    | true => exact Or.inr (Or.inl ⟨htr', rfl, by simp [handlePost, htr', hib]⟩)
    | false =>
        refine Or.inr (Or.inr ⟨by simp [handlePost, htr', hib], ?_⟩)
        simp [hib]

/-- Injectivity of the modelled identifier supply. -/
theorem uuidGen_inj {m n : Nat} (h : uuidGen m = uuidGen n) : m = n := by
  have hlen := congrArg (fun s => s.data.length) h
  simpa [uuidGen] using hlen

/-- The next identifier drawn from the supply was never issued before. -/
theorem uuidGen_fresh (st : RouterState) : uuidGen st.nextUuid ∉ issuedIds st := by
  simp only [issuedIds, List.mem_map, List.mem_range]
  rintro ⟨k, hk, heq⟩
  have := uuidGen_inj heq
  omega

/-- C1 counterexample. The claim states that every POST carrying a session
header naming an id absent from the Session Table is answered 400 with the
fixed JSON-RPC error and leaves the table unchanged. A POST carrying the
header with an *empty* value (absent from the empty table) and an
initialization body instead takes the create branch — `!sessionId` is `true`
for the empty string — so a session is created and the table grows. -/
theorem post_reject_counterexample :
    (handlePost ⟨[], 0, 0⟩ (some "") (some ⟨some "initialize"⟩)).2 = .created "u" 0 ∧
    (handlePost ⟨[], 0, 0⟩ (some "") (some ⟨some "initialize"⟩)).1.table = [("u", 0)] := by
  decide

/-- C1 (amended). Every POST on the MCP path that either carries no session
header — or an empty-valued one, which the router treats as missing — with a
body that is not an initialization request, or carries a *nonempty* session
header naming an id absent from the Session Table, leaves the Session Table
(and the whole router state) unchanged and is answered with HTTP 400 and
exactly the JSON body
`{jsonrpc:"2.0", error:{code:-32000, message:"Bad Request: No valid session ID provided"}, id:null}`. -/
theorem post_reject_no_state (st : RouterState) (header : Option String)
    (body : Option JsonBody)
    (hcase : (jsTruthy header = false ∧ isInitializeBody body = false) ∨
             (∃ s, header = some s ∧ s ≠ "" ∧ tableLookup st.table s = none)) :
    handlePost st header body = (st, .badRequest 400 badRequestBody) := by
  rcases hcase with ⟨h1, h2⟩ | ⟨s, h1, h2, h3⟩
  · simp [handlePost, h1, h2]
  · subst h1
    simp [handlePost, jsTruthy, jsOrElse, h2, h3]

/-- Witness for C1's amended theorem at a concrete request: unknown nonempty
session id `"v"` against a one-session table. -/
theorem post_reject_no_state_witness :
    handlePost ⟨[("u", 0)], 1, 1⟩ (some "v") (some ⟨some "initialize"⟩) =
      (⟨[("u", 0)], 1, 1⟩, .badRequest 400 badRequestBody) :=
  post_reject_no_state _ _ _ (Or.inr ⟨"v", rfl, by decide, by decide⟩)

/-- C2 counterexample. The claim states a new session is created exactly when
the POST carries no session-id header (and the body is an initialization
request); a POST carrying an empty-valued session header also creates one,
because the empty string is falsy in the `!sessionId` test. -/
theorem post_create_counterexample :
    (handlePost ⟨[("u", 0)], 1, 1⟩ (some "") (some ⟨some "initialize"⟩)).2 =
      .created "uu" 1 := by decide

/-- C2 (amended). A new session (new transport, new Session Table entry) is
created exactly when a POST carries no session-id header *or an empty-valued
one* and its decoded body is an initialization request; the fresh entry's
sessionId was never previously issued during the process's lifetime, and —
assuming every table key came from the identifier supply and keys are
duplicate-free — the resulting table again has duplicate-free keys drawn from
the supply, so at most one live session exists per sessionId. -/
theorem post_create_spec (st : RouterState) (header : Option String) (body : Option JsonBody)
    (hkeys : ∀ k ∈ st.table.map Prod.fst, k ∈ issuedIds st)
    (hnd : (st.table.map Prod.fst).Nodup) :
    ((∃ sid h, (handlePost st header body).2 = .created sid h) ↔
        (jsTruthy header = false ∧ isInitializeBody body = true)) ∧
    (∀ sid h, (handlePost st header body).2 = .created sid h →
        sid = uuidGen st.nextUuid ∧ sid ∉ issuedIds st ∧
        sid ∉ st.table.map Prod.fst ∧
        (handlePost st header body).1.table = (sid, st.nextHandle) :: st.table) ∧
    (((handlePost st header body).1.table.map Prod.fst).Nodup ∧
        ∀ k ∈ (handlePost st header body).1.table.map Prod.fst,
          k ∈ issuedIds (handlePost st header body).1) := by
  have hfresh := uuidGen_fresh st
  have hfresh' : uuidGen st.nextUuid ∉ st.table.map Prod.fst := fun hmem =>
    hfresh (hkeys _ hmem)
  rcases handlePost_cases st header body with
    ⟨htr, t, hlk, heq⟩ | ⟨htr, hib, heq⟩ | ⟨heq, hneg⟩
  · refine ⟨⟨?_, ?_⟩, ?_, ?_⟩
    · rintro ⟨sid, h, habs⟩
      rw [heq] at habs
      exact absurd habs (by simp)
    · rintro ⟨hf, -⟩
      rw [htr] at hf
      exact absurd hf (by simp)
    · intro sid h habs
      rw [heq] at habs
      exact absurd habs (by simp)
    · rw [heq]
      exact ⟨hnd, hkeys⟩
  · refine ⟨⟨fun _ => ⟨htr, hib⟩, ?_⟩, ?_, ?_⟩
    · intro _
      exact ⟨uuidGen st.nextUuid, st.nextHandle, by rw [heq]⟩
    · intro sid h habs
      rw [heq] at habs
      simp only [PostResponse.created.injEq] at habs
      obtain ⟨rfl, rfl⟩ := habs
      exact ⟨rfl, hfresh, hfresh', by rw [heq]⟩
    · rw [heq]
      constructor
      · rw [List.map_cons]
        exact List.nodup_cons.mpr ⟨hfresh', hnd⟩
      · intro k hk
        simp only [List.map_cons, List.mem_cons] at hk
        have hsub : ∀ x ∈ issuedIds st,
            x ∈ issuedIds (RouterState.mk
              ((uuidGen st.nextUuid, st.nextHandle) :: st.table)
              (st.nextHandle + 1) (st.nextUuid + 1)) := by
          intro x hx
          simp only [issuedIds, List.mem_map, List.mem_range] at hx ⊢
          obtain ⟨j, hj, rfl⟩ := hx
          exact ⟨j, by omega, rfl⟩
        rcases hk with rfl | hk
        · simp only [issuedIds, List.mem_map, List.mem_range]
          exact ⟨st.nextUuid, by omega, rfl⟩
        · exact hsub _ (hkeys _ hk)
  · refine ⟨⟨?_, ?_⟩, ?_, ?_⟩
    · rintro ⟨sid, h, habs⟩
      rw [heq] at habs
      exact absurd habs (by simp)
    · intro hc
      exact absurd hc hneg
    · intro sid h habs
      rw [heq] at habs
      exact absurd habs (by simp)
    · rw [heq]
      exact ⟨hnd, hkeys⟩

/-- Witness for C2's amended theorem: a headerless initialization POST against
a one-session table creates the second session with the next identifier. -/
theorem post_create_spec_witness :
    (handlePost ⟨[("u", 0)], 1, 1⟩ none (some ⟨some "initialize"⟩)).2 =
      .created "uu" 1 ∧
    (handlePost ⟨[("u", 0)], 1, 1⟩ none (some ⟨some "initialize"⟩)).1.table =
      [("uu", 1), ("u", 0)] := by
  have h := post_create_spec ⟨[("u", 0)], 1, 1⟩ none (some ⟨some "initialize"⟩)
    (by decide) (by decide)
  have hc : (handlePost ⟨[("u", 0)], 1, 1⟩ none (some ⟨some "initialize"⟩)).2 =
      .created "uu" 1 := by decide
  exact ⟨hc, by simpa using (h.2.1 "uu" 1 hc).2.2.2⟩

/-- C3. Every GET or DELETE request on the MCP path whose session-id header is
missing or names an id not present in the Session Table is answered HTTP 400
with the plain-text body "Invalid or missing session ID", and the table is
returned unchanged. -/
theorem session_request_invalid_rejected (t : SessionTable) (header : Option String)
    (hcase : header = none ∨ ∃ s, header = some s ∧ tableLookup t s = none) :
    handleSessionRequest t header = (t, .reject 400 "Invalid or missing session ID") := by
  rcases hcase with h | ⟨s, h, hlk⟩
  · subst h
    simp [handleSessionRequest, jsTruthy]
  · subst h
    by_cases hs : s = ""
    · subst hs
      simp [handleSessionRequest, jsTruthy]
    · simp [handleSessionRequest, jsTruthy, jsOrElse, hs, hlk]

/-- Witness for C3 at a concrete request: unknown session id `"x"` against a
one-session table. -/
theorem session_request_invalid_rejected_witness :
    handleSessionRequest [("u", 0)] (some "x") =
      ([("u", 0)], .reject 400 "Invalid or missing session ID") :=
  session_request_invalid_rejected _ _ (Or.inr ⟨"x", rfl, by decide⟩)

/-- Keys rejected by a lookup are held by no pair of the table. -/
theorem tableLookup_eq_none_forall {t : SessionTable} {s : String}
    (h : tableLookup t s = none) : ∀ p ∈ t, p.1 ≠ s := by
  induction t with
  | nil => simp
  | cons hd tl ih =>
      intro p hp
      rw [List.mem_cons] at hp
      by_cases hk : hd.1 = s
      · rw [show tableLookup (hd :: tl) s = some hd.2 by simp [tableLookup, hk]] at h
        exact absurd h (by simp)
      · rcases hp with rfl | hp
        · exact hk
        · refine ih ?_ p hp
          simpa [tableLookup, hk] using h

/-- Deleting a key twice equals deleting it once. -/
theorem tableDelete_idem (t : SessionTable) (s : String) :
    tableDelete (tableDelete t s) s = tableDelete t s := by
  apply List.filter_eq_self.mpr
  intro a ha
  exact (List.mem_filter.mp ha).2

/-- C4. The session teardown hook is idempotent: running `onclose` twice with
the same transport sessionId leaves the Session Table exactly as running it
once, and removing an already-absent sessionId is a no-op (the table is
returned untouched), not an error. -/
theorem teardown_idempotent (t : SessionTable) (tsid : Option String) :
    oncloseHook (oncloseHook t tsid) tsid = oncloseHook t tsid ∧
    (∀ s, tableLookup t s = none → oncloseHook t (some s) = t) := by
  constructor
  · unfold oncloseHook
    cases htr : jsTruthy tsid with
    | false => simp
    | true => simp [tableDelete_idem]
  · intro s hlk
    unfold oncloseHook
    by_cases hs : s = ""
    · simp [hs, jsTruthy]
    · simp only [jsTruthy, jsOrElse, hs, if_neg hs]
      rw [if_pos (by simp [hs])]
      exact List.filter_eq_self.mpr (by
        intro a ha
        simpa using tableLookup_eq_none_forall hlk a ha)

/-- Witness for C4 at a concrete table: removing the absent id `"v"` from a
one-session table returns it unchanged. -/
theorem teardown_idempotent_witness :
    oncloseHook [("u", 0)] (some "v") = [("u", 0)] :=
  (teardown_idempotent [("u", 0)] (some "v")).2 "v" (by decide)

/-- Unreserved characters of JavaScript `encodeURIComponent`: alphanumerics
and `- _ . ! ~ * ' ( )` are passed through unescaped. -/
def isUnreservedURIChar (c : Char) : Bool :=
  c.isAlphanum || c = '-' || c = '_' || c = '.' || c = '!' || c = '~' || c = '*' ||
    c = Char.ofNat 39 || c = '(' || c = ')'

/-- Bytes of the UTF-8 encoding of a Unicode scalar value. -/
def utf8Bytes (c : Char) : List Nat :=
  let n := c.toNat
  if n < 128 then [n]
  else if n < 2048 then [192 + n / 64, 128 + n % 64]
  else if n < 65536 then [224 + n / 4096, 128 + (n / 64) % 64, 128 + n % 64]
  else [240 + n / 262144, 128 + (n / 4096) % 64, 128 + (n / 64) % 64, 128 + n % 64]

/-- Uppercase hexadecimal digit for a value below 16. -/
def hexDigitUpper (n : Nat) : Char :=
  if n < 10 then Char.ofNat (48 + n) else Char.ofNat (55 + n)

/-- Percent-encoding of one byte, uppercase hexadecimal. -/
def percentEncodeByte (b : Nat) : String :=
  String.mk ['%', hexDigitUpper (b / 16), hexDigitUpper (b % 16)]

/-- JavaScript `encodeURIComponent`: unreserved characters pass through, every
other character is replaced by the percent-encoding of its UTF-8 bytes. -/
def encodeURIComponent (s : String) : String :=
  String.join (s.data.map (fun c =>
    if isUnreservedURIChar c then String.mk [c]
    else String.join ((utf8Bytes c).map percentEncodeByte)))

/-- HTTP verb used by an upstream call of the `MCSManagerAPI` client. -/
inductive HttpMethod where
  | get
  | post
  | put
deriving DecidableEq

/-- Request body attached to an upstream call, matching the JSON values built
at the call sites of `mcsmanager-api.ts`: the `multi_*` endpoints send
`[{ instanceUuid, daemonId }]`, the file endpoints send `{ target }` or
`{ target, text }`, GET requests send no body. -/
inductive UpstreamBody where
  | empty
  | instanceTargets (targets : List (String × String))
  | fileTarget (target : String)
  | fileWrite (target : String) (text : String)
deriving DecidableEq

/-- One outbound HTTP request against the configured base URL of the panel. -/
structure HttpRequest where
  method : HttpMethod
  url : String
  body : UpstreamBody
deriving DecidableEq

/-- Operations of the `MCSManagerAPI` upstream client (`mcsmanager-api.ts`),
one constructor per method, carrying the parameters of that method. Page
numbers are the small naturals used at every call site; the TypeScript
defaults (`page = 1, pageSize = 10` for instances, `page = 0, pageSize = 100`
for file lists, `page = 1, pageSize = 20` for users) are applied explicitly by
callers of this model. -/
inductive ApiCall where
  | getDaemons
  | getInstances (daemonId : String) (page : Nat) (pageSize : Nat)
  | getInstanceDetail (instanceUuid daemonId : String)
  | startInstance (instanceUuid daemonId : String)
  | stopInstance (instanceUuid daemonId : String)
  | restartInstance (instanceUuid daemonId : String)
  | killInstance (instanceUuid daemonId : String)
  | sendCommand (instanceUuid daemonId command : String)
  | getFileList (instanceUuid daemonId target : String) (page pageSize : Nat)
  | getFileContent (instanceUuid daemonId target : String)
  | updateFileContent (instanceUuid daemonId target text : String)
  | getUsers (page pageSize : Nat)
  | getOverview
deriving DecidableEq

/-- The single HTTP request issued by each `MCSManagerAPI` method, with the
URL template copied from `mcsmanager-api.ts` (the `apikey` query parameter
carries the static credential on every call). -/
def apiRequest (apiKey : String) : ApiCall → HttpRequest
  | .getDaemons =>
      ⟨.get, "/api/service/remote_services_system?apikey=" ++ apiKey, .empty⟩
  | .getInstances d p ps =>
      ⟨.get, "/api/service/remote_service_instances?daemonId=" ++ d ++ "&page=" ++
        Nat.repr p ++ "&page_size=" ++ Nat.repr ps ++ "&apikey=" ++ apiKey ++
        "&instance_name=&status=&tag=[]", .empty⟩
  | .getInstanceDetail u d =>
      ⟨.get, "/api/instance?uuid=" ++ u ++ "&daemonId=" ++ d ++ "&apikey=" ++ apiKey, .empty⟩
  | .startInstance u d =>
      ⟨.post, "/api/instance/multi_start?apikey=" ++ apiKey, .instanceTargets [(u, d)]⟩
  | .stopInstance u d =>
      ⟨.post, "/api/instance/multi_stop?apikey=" ++ apiKey, .instanceTargets [(u, d)]⟩
  | .restartInstance u d =>
      ⟨.post, "/api/instance/multi_restart?apikey=" ++ apiKey, .instanceTargets [(u, d)]⟩
  | .killInstance u d =>
      ⟨.post, "/api/instance/multi_kill?apikey=" ++ apiKey, .instanceTargets [(u, d)]⟩
  | .sendCommand u d c =>
      ⟨.get, "/api/protected_instance/command?uuid=" ++ u ++ "&daemonId=" ++ d ++
        "&command=" ++ encodeURIComponent c ++ "&apikey=" ++ apiKey, .empty⟩
  | .getFileList u d t p ps =>
      ⟨.get, "/api/files/list?uuid=" ++ u ++ "&daemonId=" ++ d ++ "&target=" ++
        encodeURIComponent t ++ "&page=" ++ Nat.repr p ++ "&page_size=" ++ Nat.repr ps ++
        "&apikey=" ++ apiKey, .empty⟩
  | .getFileContent u d t =>
      ⟨.put, "/api/files/?uuid=" ++ u ++ "&daemonId=" ++ d ++ "&apikey=" ++ apiKey,
        .fileTarget t⟩
  | .updateFileContent u d t x =>
      ⟨.put, "/api/files/?uuid=" ++ u ++ "&daemonId=" ++ d ++ "&apikey=" ++ apiKey,
        .fileWrite t x⟩
  | .getUsers p ps =>
      ⟨.get, "/api/auth/list?page=" ++ Nat.repr p ++ "&page_size=" ++ Nat.repr ps ++
        "&apikey=" ++ apiKey, .empty⟩
  | .getOverview =>
      ⟨.get, "/api/overview?apikey=" ++ apiKey, .empty⟩

/-- Decoded response delivered by the underlying HTTP client (axios): the
transport-level status and the decoded body. Every `MCSManagerAPI` method
returns `response.data`, the decoded body, unchanged. -/
structure AxiosResp (α : Type) where
  status : Nat
  data : α
deriving DecidableEq

/-- Execution of one `MCSManagerAPI` method against an HTTP environment `io`:
the method issues exactly the one request built from its parameters (the
returned list is the trace of issued requests), then either returns the
decoded body of the response or lets the transport error propagate unchanged
(`await` rethrows, and no method catches). -/
def runApiCall {ε α : Type} (io : HttpRequest → Except ε (AxiosResp α)) (apiKey : String)
    (c : ApiCall) : List HttpRequest × Except ε α :=
  ([apiRequest apiKey c], (io (apiRequest apiKey c)).map AxiosResp.data)

/-- Presence of the static credential as an `apikey` query parameter inside a
URL. -/
def hasApikeyParam (url apiKey : String) : Prop :=
  ∃ pre post, url = pre ++ "apikey=" ++ apiKey ++ post

/-- Splitting a literal suffix of a string append. -/
theorem append_split_right (A : String) {l m r : String} (h : l = m ++ r) :
    A ++ l = A ++ m ++ r := by
  rw [String.append_assoc, ← h]

/-- URLs of the shape `A ++ "&apikey=" ++ key ++ suffix` carry the credential. -/
theorem hasApikey_amp (A apiKey suf : String) :
    hasApikeyParam (A ++ "&apikey=" ++ apiKey ++ suf) apiKey :=
  ⟨A ++ "&", suf, by
    rw [show A ++ "&apikey=" = A ++ "&" ++ "apikey=" from append_split_right A (by decide)]⟩

/-- URLs of the shape `A ++ "&apikey=" ++ key` carry the credential. -/
theorem hasApikey_amp_end (A apiKey : String) :
    hasApikeyParam (A ++ "&apikey=" ++ apiKey) apiKey :=
  ⟨A ++ "&", "", by
    rw [String.append_empty,
      show A ++ "&apikey=" = A ++ "&" ++ "apikey=" from append_split_right A (by decide)]⟩

/-- URLs of the shape `lit ++ key` where the literal ends in `"apikey="` carry
the credential. -/
theorem hasApikey_lit_end (lit pre apiKey : String) (h : lit = pre ++ "apikey=") :
    hasApikeyParam (lit ++ apiKey) apiKey :=
  ⟨pre, "", by rw [String.append_empty, h]⟩

/-- Every URL built by the upstream client carries the static credential as an
`apikey` query parameter. -/
theorem apiRequest_hasApikey (apiKey : String) (c : ApiCall) :
    hasApikeyParam (apiRequest apiKey c).url apiKey := by
  cases c with
  | getDaemons =>
      exact hasApikey_lit_end _ "/api/service/remote_services_system?" apiKey (by decide)
  | getInstances d p ps => exact hasApikey_amp _ apiKey _
  | getInstanceDetail u d => exact hasApikey_amp_end _ apiKey
  | startInstance u d =>
      exact hasApikey_lit_end _ "/api/instance/multi_start?" apiKey (by decide)
  | stopInstance u d =>
      exact hasApikey_lit_end _ "/api/instance/multi_stop?" apiKey (by decide)
  | restartInstance u d =>
      exact hasApikey_lit_end _ "/api/instance/multi_restart?" apiKey (by decide)
  | killInstance u d =>
      exact hasApikey_lit_end _ "/api/instance/multi_kill?" apiKey (by decide)
  | sendCommand u d cm => exact hasApikey_amp_end _ apiKey
  | getFileList u d t p ps => exact hasApikey_amp_end _ apiKey
  | getFileContent u d t => exact hasApikey_amp_end _ apiKey
  | updateFileContent u d t x => exact hasApikey_amp_end _ apiKey
  | getUsers p ps => exact hasApikey_amp_end _ apiKey
  | getOverview => exact hasApikey_lit_end _ "/api/overview?" apiKey (by decide)

/-- C7. Every method of the upstream client performs exactly one HTTP call
(the issued-request trace is the one-element list of the request built from
the parameters) whose URL carries the static credential as the `apikey` query
parameter, and either returns the raw decoded response body unchanged or lets
a transport-level error propagate to the caller unchanged. -/
theorem api_client_contract {ε α : Type} (apiKey : String) (c : ApiCall)
    (io : HttpRequest → Except ε (AxiosResp α)) :
    (runApiCall io apiKey c).1 = [apiRequest apiKey c] ∧
    hasApikeyParam (apiRequest apiKey c).url apiKey ∧
    (∀ e, io (apiRequest apiKey c) = .error e → (runApiCall io apiKey c).2 = .error e) ∧
    (∀ r, io (apiRequest apiKey c) = .ok r → (runApiCall io apiKey c).2 = .ok r.data) := by
  refine ⟨rfl, apiRequest_hasApikey apiKey c, ?_, ?_⟩
  · intro e he
    simp [runApiCall, he, Except.map]
  · intro r hr
    simp [runApiCall, hr, Except.map]

/-- Witness for C7 at a concrete call: a `getOverview` call against an
environment answering body `7` returns `7`. -/
theorem api_client_contract_witness :
    (runApiCall (fun _ => Except.ok (⟨200, 7⟩ : AxiosResp Nat) (ε := String)) "k"
      .getOverview).2 = .ok 7 :=
  (api_client_contract "k" .getOverview _).2.2.2 ⟨200, 7⟩ rfl

/-- Result of a tool invocation whose payload is one text content block
(`content: [{type:"text", text}]`) plus the `isError` marker; a missing
`isError` field in the source is the success case, modelled as `false`. -/
structure ToolResult where
  text : String
  isError : Bool
deriving DecidableEq

/-- Decoded body answered by the panel on every endpoint: a `status` code and
a `data` payload; tool handlers test `response.status !== 200` and project
`response.data`. -/
structure PanelResp (α : Type) where
  status : Nat
  data : α
deriving DecidableEq

/-- The `start-instance` tool handler (`server.ts` lines 428–465): one
upstream `startInstance` call; a non-200 panel status throws inside the `try`,
and the `catch` turns any thrown error into an error-marked text result, so no
fault escapes the handler. -/
def startInstanceHandler {α : Type} (apiKey daemonId instanceId : String)
    (io : HttpRequest → Except String (AxiosResp (PanelResp α))) :
    List HttpRequest × ToolResult :=
  let pr := runApiCall io apiKey (.startInstance instanceId daemonId)
  match pr.2 with
  | .error e => (pr.1, ⟨"Error starting instance: " ++ e, true⟩)
  | .ok resp =>
      if resp.status ≠ 200 then
        (pr.1, ⟨"Error starting instance: " ++
          ("Failed to start instance: " ++ Nat.repr resp.status), true⟩)
      else
        (pr.1, ⟨"Successfully started instance " ++ instanceId, false⟩)

/-- C5. The `start-instance` tool returns a success (non-error) text block
containing "Successfully started instance (instanceId)" exactly when the
upstream call reports panel status 200; for any other status the result is
error-marked with the failure status in its message, and for any thrown
transport error the result is error-marked with the exception message — the
handler is total, so no fault escapes it. -/
theorem start_instance_contract {α : Type} (apiKey d i : String)
    (io : HttpRequest → Except String (AxiosResp (PanelResp α))) :
    (((startInstanceHandler apiKey d i io).2.isError = false ∧
        (startInstanceHandler apiKey d i io).2.text =
          "Successfully started instance " ++ i) ↔
      (∃ r, io (apiRequest apiKey (.startInstance i d)) = .ok r ∧ r.data.status = 200)) ∧
    (∀ r, io (apiRequest apiKey (.startInstance i d)) = .ok r → r.data.status ≠ 200 →
        (startInstanceHandler apiKey d i io).2.isError = true ∧
        (startInstanceHandler apiKey d i io).2.text =
          "Error starting instance: " ++
            ("Failed to start instance: " ++ Nat.repr r.data.status)) ∧
    (∀ e, io (apiRequest apiKey (.startInstance i d)) = .error e →
        (startInstanceHandler apiKey d i io).2.isError = true ∧
        (startInstanceHandler apiKey d i io).2.text = "Error starting instance: " ++ e) := by
  cases hio : io (apiRequest apiKey (.startInstance i d)) with
  | error e =>
      refine ⟨⟨?_, ?_⟩, ?_, ?_⟩
      · rintro ⟨hf, -⟩
        simp [startInstanceHandler, runApiCall, hio, Except.map] at hf
      · rintro ⟨r, hr, -⟩
        exact absurd hr (by simp)
      · intro r hr
        exact absurd hr (by simp)
      · intro x hx
        obtain rfl : e = x := by simpa using hx
        simp [startInstanceHandler, runApiCall, hio, Except.map]
  | ok r =>
      by_cases hst : r.data.status = 200
      · refine ⟨⟨fun _ => ⟨r, rfl, hst⟩, fun _ => ?_⟩, ?_, ?_⟩
        · simp [startInstanceHandler, runApiCall, hio, Except.map, hst]
        · intro x hx hne
          obtain rfl : r = x := by simpa using hx
          exact absurd hst hne
        · intro e he
          exact absurd he (by simp)
      · refine ⟨⟨?_, ?_⟩, ?_, ?_⟩
        · rintro ⟨hf, -⟩
          simp [startInstanceHandler, runApiCall, hio, Except.map, hst] at hf
        · rintro ⟨x, hx, hxs⟩
          obtain rfl : r = x := by simpa using hx
          exact absurd hxs hst
        · intro x hx hne
          obtain rfl : r = x := by simpa using hx
          simp [startInstanceHandler, runApiCall, hio, Except.map, hst]
        · intro e he
          exact absurd he (by simp)

/-- Witness for C5 at a concrete call: upstream status 200 yields the success
text for instance `"i1"`. -/
theorem start_instance_contract_witness :
    (startInstanceHandler (α := Nat) "k" "d1" "i1"
        (fun _ => .ok ⟨200, ⟨200, 0⟩⟩)).2.isError = false :=
  ((start_instance_contract "k" "d1" "i1" _).1.mpr ⟨⟨200, ⟨200, 0⟩⟩, rfl, rfl⟩).1

/-- Upstream file entry as the `get-files` handler reads it: the fields
`name`, `size`, `time`, `type` (raw numeric code) and `mode` of each item. -/
structure FileItem where
  name : String
  size : Nat
  time : String
  type : Int
  mode : Nat
deriving DecidableEq

/-- Upstream payload of the file-list endpoint as read by the handler:
`absolutePath` and the `items` array. -/
structure FileListData where
  absolutePath : String
  items : List FileItem
deriving DecidableEq

/-- One entry of the projection built by the `get-files` handler. -/
structure FileEntry where
  name : String
  size : Nat
  time : String
  type : String
  mode : Nat
deriving DecidableEq

/-- The projection `filesInfo` built by the `get-files` handler. -/
structure FilesInfo where
  path : String
  files : List FileEntry
deriving DecidableEq

/-- Per-item projection of the `get-files` handler:
`type: file.type === 0 ? "directory" : "file"`, other fields copied. -/
def projectFile (f : FileItem) : FileEntry :=
  ⟨f.name, f.size, f.time, if f.type = 0 then "directory" else "file", f.mode⟩

/-- Result of the `get-files` tool: the source serializes the success
projection with `JSON.stringify` into one text block; the structured
projection is carried here directly (the serialization is an injective
formatting step the claims do not concern). -/
inductive FilesResult where
  | success (info : FilesInfo)
  | failure (msg : String)
deriving DecidableEq

/-- The `get-files` tool handler (`server.ts` lines 228–286): the optional
`path` argument defaults through `path || ""` to the empty target, one
upstream `getFileList` call is made with the TypeScript default paging
(`page = 0, pageSize = 100`), a non-200 panel status throws and is caught as
an error-marked result. -/
def getFilesHandler (apiKey daemonId instanceId : String) (path : Option String)
    (io : HttpRequest → Except String (AxiosResp (PanelResp FileListData))) :
    List HttpRequest × FilesResult :=
  let targetPath := jsOrElse path ""
  let pr := runApiCall io apiKey (.getFileList instanceId daemonId targetPath 0 100)
  (pr.1,
    match pr.2 with
    | .error e => .failure ("Error fetching files: " ++ e)
    | .ok resp =>
        if resp.status ≠ 200 then
          .failure ("Error fetching files: " ++
            ("Failed to get file list: " ++ Nat.repr resp.status))
        else
          .success ⟨resp.data.absolutePath, resp.data.items.map projectFile⟩)

/-- C8. When the `path` argument of `get-files` is omitted, the single
upstream file-list call is made with an empty target path; on a status-200
response the result is the projection of the returned items, and each
projected entry has `type = "directory"` exactly when the raw upstream type
code is `0`, and `type = "file"` for every other code. -/
theorem get_files_contract (apiKey d i : String)
    (io : HttpRequest → Except String (AxiosResp (PanelResp FileListData))) :
    (getFilesHandler apiKey d i none io).1 =
      [apiRequest apiKey (.getFileList i d "" 0 100)] ∧
    (∀ r, io (apiRequest apiKey (.getFileList i d "" 0 100)) = .ok r →
        r.data.status = 200 →
        (getFilesHandler apiKey d i none io).2 =
          .success ⟨r.data.data.absolutePath, r.data.data.items.map projectFile⟩) ∧
    (∀ f : FileItem, ((projectFile f).type = "directory" ↔ f.type = 0) ∧
        ((projectFile f).type = "file" ↔ f.type ≠ 0)) := by
  refine ⟨rfl, ?_, ?_⟩
  · intro r hr hst
    simp [getFilesHandler, runApiCall, jsOrElse, hr, Except.map, hst]
  · intro f
    by_cases hf : f.type = 0
    · simp [projectFile, hf]
    · simp [projectFile, hf]

/-- Witness for C8 at a concrete call: one directory item (raw type 0) and one
file item (raw type 1) project to `"directory"` and `"file"`. -/
theorem get_files_contract_witness :
    (getFilesHandler "k" "d1" "i1" none
        (fun _ => .ok ⟨200, ⟨200, ⟨"/", [⟨"a", 1, "t", 0, 7⟩, ⟨"b", 2, "t", 1, 7⟩]⟩⟩⟩)).2 =
      .success ⟨"/", [⟨"a", 1, "t", "directory", 7⟩, ⟨"b", 2, "t", "file", 7⟩]⟩ :=
  (get_files_contract "k" "d1" "i1" _).2.1
    ⟨200, ⟨200, ⟨"/", [⟨"a", 1, "t", 0, 7⟩, ⟨"b", 2, "t", 1, 7⟩]⟩⟩⟩ rfl rfl

/-- The `get-file-content` tool handler (`server.ts` lines 289–335): an empty
`filePath` throws `"File path is required"` inside the `try` before the
upstream client is touched, so the catch answers with the error-marked result
and the issued-request trace stays empty; otherwise one upstream
`getFileContent` call is made and its non-200 status or transport error is
caught likewise. -/
def getFileContentHandler (apiKey daemonId instanceId filePath : String)
    (io : HttpRequest → Except String (AxiosResp (PanelResp String))) :
    List HttpRequest × ToolResult :=
  if filePath = "" then
    ([], ⟨"Error fetching file content: " ++ "File path is required", true⟩)
  else
    let pr := runApiCall io apiKey (.getFileContent instanceId daemonId filePath)
    match pr.2 with
    | .error e => (pr.1, ⟨"Error fetching file content: " ++ e, true⟩)
    | .ok resp =>
        if resp.status ≠ 200 then
          (pr.1, ⟨"Error fetching file content: " ++
            ("Failed to get file content: " ++ Nat.repr resp.status), true⟩)
        else
          (pr.1, ⟨resp.data, false⟩)

/-- C9. A `get-file-content` invocation whose `filePath` argument is empty is
rejected at the boundary: the handler returns the error-marked result carrying
"File path is required" and the upstream client is never invoked (the
issued-request trace is empty). -/
theorem get_file_content_validation (apiKey d i : String)
    (io : HttpRequest → Except String (AxiosResp (PanelResp String))) :
    (getFileContentHandler apiKey d i "" io).1 = [] ∧
    (getFileContentHandler apiKey d i "" io).2 =
      ⟨"Error fetching file content: " ++ "File path is required", true⟩ := by
  constructor <;> simp [getFileContentHandler]

/-- Upstream instance configuration fields read by the instance projections. -/
structure InstanceConfig where
  nickname : String
  type : String
  startCommand : String
  stopCommand : String
  cwd : String
  createDatetime : Nat
deriving DecidableEq

/-- Upstream instance record as the `get-instances` handler reads it;
`processInfo` is copied through opaquely. -/
structure InstanceData where
  instanceUuid : String
  config : InstanceConfig
  status : Int
  processInfo : String
deriving DecidableEq

/-- Paged payload of the instances endpoint: the handler reads only the
`data` array of `response.data` (page metadata fields are not read). -/
structure InstancePage where
  data : List InstanceData
deriving DecidableEq

/-- Status-code-to-label mapping `getStatusText` of `server.ts`. -/
def getStatusText (status : Int) : String :=
  if status = -1 then "busy"
  else if status = 0 then "stopped"
  else if status = 1 then "stopping"
  else if status = 2 then "starting"
  else if status = 3 then "running"
  else "unknown"

/-- One entry of the projection built by the `get-instances` handler;
`created` keeps the raw `createDatetime` value (the injective ISO-8601
reformatting by `toISOString` is not modelled). -/
structure InstanceInfo where
  id : String
  name : String
  status : String
  type : String
  startCommand : String
  stopCommand : String
  cwd : String
  processInfo : String
  created : Nat
deriving DecidableEq

/-- Per-instance projection of the `get-instances` handler. -/
def projectInstance (inst : InstanceData) : InstanceInfo :=
  ⟨inst.instanceUuid, inst.config.nickname, getStatusText inst.status, inst.config.type,
    inst.config.startCommand, inst.config.stopCommand, inst.config.cwd, inst.processInfo,
    inst.config.createDatetime⟩

/-- Result of the `get-instances` tool; as for `get-files`, the structured
projection stands for the `JSON.stringify` text block of the source. -/
inductive InstancesResult where
  | success (instances : List InstanceInfo)
  | failure (msg : String)
deriving DecidableEq

/-- The `get-instances` tool handler (`server.ts` lines 107–160): it calls
`this.api.getInstances(daemonId)` with both page arguments omitted, so the
TypeScript defaults `page = 1, pageSize = 10` of `mcsmanager-api.ts` apply;
the tool schema exposes only `daemonId`, so no caller input reaches the page
arguments. -/
def getInstancesHandler (apiKey daemonId : String)
    (io : HttpRequest → Except String (AxiosResp (PanelResp InstancePage))) :
    List HttpRequest × InstancesResult :=
  let pr := runApiCall io apiKey (.getInstances daemonId 1 10)
  (pr.1,
    match pr.2 with
    | .error e => .failure ("Error fetching instances: " ++ e)
    | .ok resp =>
        if resp.status ≠ 200 then
          .failure ("Error fetching instances: " ++
            ("Failed to get instances: " ++ Nat.repr resp.status))
        else
          .success (resp.data.data.map projectInstance))

/-- C10. Every `get-instances` invocation makes its single upstream call with
page 1 and page size 10 — visible both in the issued `ApiCall` and in the
request URL — so the projection returned on success is exactly the first
returned page, and whenever the panel honours the page size (at most 10
entries in the page) the tool result holds at most 10 instances; no caller
input can reach beyond that first page through this tool. -/
theorem get_instances_first_page_only (apiKey d : String)
    (io : HttpRequest → Except String (AxiosResp (PanelResp InstancePage))) :
    (getInstancesHandler apiKey d io).1 = [apiRequest apiKey (.getInstances d 1 10)] ∧
    (apiRequest apiKey (.getInstances d 1 10)).url =
      "/api/service/remote_service_instances?daemonId=" ++ d ++
        "&page=1&page_size=10&apikey=" ++ apiKey ++ "&instance_name=&status=&tag=[]" ∧
    (∀ r, io (apiRequest apiKey (.getInstances d 1 10)) = .ok r → r.data.status = 200 →
        (getInstancesHandler apiKey d io).2 =
          .success (r.data.data.data.map projectInstance) ∧
        (r.data.data.data.length ≤ 10 →
          ∃ l, (getInstancesHandler apiKey d io).2 = .success l ∧ l.length ≤ 10)) := by
  refine ⟨rfl, ?_, ?_⟩
  · have hA : ∀ Y : String,
        Y ++ "&page=" ++ Nat.repr 1 ++ "&page_size=" ++ Nat.repr 10 ++ "&apikey=" =
          Y ++ "&page=1&page_size=10&apikey=" := by
      intro Y
      simp only [String.append_assoc]
      exact congrArg (fun s => Y ++ s) (by decide)
    show "/api/service/remote_service_instances?daemonId=" ++ d ++ "&page=" ++
        Nat.repr 1 ++ "&page_size=" ++ Nat.repr 10 ++ "&apikey=" ++ apiKey ++
        "&instance_name=&status=&tag=[]" = _
    rw [hA]
  · intro r hr hst
    have hres : (getInstancesHandler apiKey d io).2 =
        .success (r.data.data.data.map projectInstance) := by
      simp [getInstancesHandler, runApiCall, hr, Except.map, hst]
    refine ⟨hres, fun hlen => ⟨r.data.data.data.map projectInstance, hres, ?_⟩⟩
    simpa using hlen

/-- Witness for C10 at a concrete call: a one-instance page of status 200
yields a one-entry result. -/
theorem get_instances_first_page_only_witness :
    (getInstancesHandler "k" "d1"
        (fun _ => .ok ⟨200, ⟨200, ⟨[⟨"i1", ⟨"n", "mc", "s", "p", "/w", 5⟩, 3, "pi"⟩]⟩⟩⟩)).2 =
      .success [⟨"i1", "n", "running", "mc", "s", "p", "/w", "pi", 5⟩] :=
  ((get_instances_first_page_only "k" "d1" _).2.2
      ⟨200, ⟨200, ⟨[⟨"i1", ⟨"n", "mc", "s", "p", "/w", 5⟩, 3, "pi"⟩]⟩⟩⟩ rfl rfl).1

/-- Process environment: a mapping from variable names to values. -/
abbrev Env := List (String × String)

/-- Lookup `process.env.KEY`: `some` value when the variable is set, `none`
(undefined) otherwise. -/
def envLookup : Env → String → Option String
  | [], _ => none
  | (k, v) :: rest, s => if k = s then some v else envLookup rest s

/-- Defaulting `process.env.KEY || dflt` used throughout `config.ts`. -/
def envOr (env : Env) (key dflt : String) : String :=
  jsOrElse (envLookup env key) dflt

/-- Accumulated decimal value of a digit list. -/
def digitsToNat (l : List Char) : Nat :=
  l.foldl (fun a c => a * 10 + (c.toNat - 48)) 0

/-- JavaScript `parseInt` in base 10: skip leading whitespace, take an
optional sign and the longest run of leading digits; `none` models `NaN` when
no digit is found. -/
def parseIntJS (s : String) : Option Int :=
  let chars := s.data.dropWhile (fun c => c.isWhitespace)
  let signed : Int × List Char :=
    match chars with
    | '-' :: rest => (-1, rest)
    | '+' :: rest => (1, rest)
    | rest => (1, rest)
  let ds := signed.2.takeWhile (fun c => c.isDigit)
  if ds.isEmpty then none
  else some (signed.1 * Int.ofNat (digitsToNat ds))

/-- Configuration record of `config.ts`; `port` is `parseInt` of the
environment value, with `none` modelling `NaN`. -/
structure MCPServerConfig where
  mcsmanagerUrl : String
  apiKey : String
  port : Option Int
  host : String
deriving DecidableEq

/-- Configuration loading `getConfig` of `config.ts`, spreading
`defaultConfig`: every field is environment-sourced with the defaults of the
source, and the API key defaults to the empty string when the variable is
unset. -/
def getConfig (env : Env) : MCPServerConfig :=
  { mcsmanagerUrl := envOr env "MCSMANAGER_URL" "http://localhost:23333"
    apiKey := envOr env "MCSMANAGER_API_KEY" ""
    port := parseIntJS (envOr env "MCP_PORT" "3000")
    host := envOr env "MCP_HOST" "localhost" }

/-- Observable startup steps of `main` in `index.ts`, in program order:
logging the missing-key error, constructing `MCSManagerMCPServer`, binding the
HTTP listener inside `start`, and logging the started message. -/
inductive StartEvent where
  | errorLogged (msg : String)
  | serverConstructed
  | listenerBound (port : Option Int) (host : String)
  | startedLogged
deriving DecidableEq

/-- The `main` entry point of `index.ts`: load the configuration, test
`!config.apiKey` (the empty-string test, since `getConfig` defaults the key to
`""`), and either log the error and exit with status 1 — before any server is
constructed or any listener bound — or construct the server, bind the
listener and log success. The result is the ordered event trace and the exit
status (`none` = the process keeps running). -/
def mainRun (env : Env) : List StartEvent × Option Nat :=
  let config := getConfig env
  if config.apiKey = "" then
    ([.errorLogged "Error: MCSMANAGER_API_KEY environment variable is not set"], some 1)
  else
    ([.serverConstructed, .listenerBound config.port config.host, .startedLogged], none)

/-- C6. When the required API credential is absent from the environment (the
variable unset, or set to the empty string, which the source treats as
missing), the process exits with the non-zero status 1 and its startup trace
contains neither a server construction nor a listener binding: no server is
constructed and no port is opened. -/
theorem startup_requires_credential (env : Env)
    (hk : envLookup env "MCSMANAGER_API_KEY" = none ∨
          envLookup env "MCSMANAGER_API_KEY" = some "") :
    (mainRun env).2 = some 1 ∧
    StartEvent.serverConstructed ∉ (mainRun env).1 ∧
    (∀ p h, StartEvent.listenerBound p h ∉ (mainRun env).1) := by
  have hkey : (getConfig env).apiKey = "" := by
    rcases hk with h | h <;> simp [getConfig, envOr, jsOrElse, h]
  simp [mainRun, hkey]

/-- Witness for C6 at the empty environment: the variable is unset, the
process exits with status 1 and binds nothing. -/
theorem startup_requires_credential_witness :
    (mainRun []).2 = some 1 ∧
    StartEvent.serverConstructed ∉ (mainRun []).1 ∧
    (∀ p h, StartEvent.listenerBound p h ∉ (mainRun []).1) :=
  startup_requires_credential [] (Or.inl rfl)
